import Mathlib

/-
Verification of the session-authentication and notification-routing logic of
the Telegram notification bot (src/bot.py).  The conversation handlers, the
two in-memory stores and the /notify endpoint are shallowly embedded below;
the external collaborators (the verifier HTTP endpoint and the Telegram
transport) appear as explicit inputs of the embedded handlers.
-/

set_option maxHeartbeats 1000000
set_option linter.unusedVariables false

namespace Bot

/-- JSON scalar values as the handlers read them out of parsed payloads
(strings, numbers, booleans and null cover every field src/bot.py reads). -/
inductive Json where
  | str : String → Json
  | num : Int → Json
  | bool : Bool → Json
  | null : Json
deriving DecidableEq, Repr

/-- Python truthiness of a JSON value, as used by `if x:` tests in bot.py. -/
def Json.truthy : Json → Bool
  | .str s => s != ""
  | .num n => n != 0
  | .bool b => b
  | .null => false

/-- Python `==` on JSON scalars: numbers and booleans compare numerically,
values of otherwise different types are unequal (so `1 == "1"` is false). -/
def Json.pyEq : Json → Json → Bool
  | .str a, .str b => a == b
  | .num a, .num b => a == b
  | .bool a, .bool b => a == b
  | .num a, .bool b => a == (if b then (1 : Int) else 0)
  | .bool a, .num b => (if a then (1 : Int) else 0) == b
  | .null, .null => true
  | _, _ => false

/-- Truthiness of a `dict.get(k)` result: an absent key gives `None`,
which is falsy. -/
def truthyOpt : Option Json → Bool
  | none => false
  | some j => j.truthy

/-- Python `str()` of a JSON scalar (used for `str(website_id)`). -/
def pyStr : Json → String
  | .str s => s
  | .num n => toString n
  | .bool b => if b then "True" else "False"
  | .null => "None"

/-- Whitespace characters stripped by `str.strip()` (ASCII range). -/
def isPySpace (c : Char) : Bool :=
  c == ' ' || c == '\t' || c == '\n' || c == '\x0d' || c == '\x0b' || c == '\x0c'

/-- Model of Python `str.strip()`: drop leading and trailing whitespace. -/
def pyStrip (s : String) : String :=
  String.mk (((s.data.dropWhile isPySpace).reverse.dropWhile isPySpace).reverse)

/-- Characters escaped by telegram.helpers.escape_markdown with version=2. -/
def mdv2Chars : List Char :=
  ['_', '*', '[', ']', '(', ')', '~', Char.ofNat 96, '>', '#', '+', '-', '=', '|',
   Char.ofNat 123, Char.ofNat 125, '.', '!']

/-- Effect of telegram.helpers.escape_markdown(version=2) on a string:
prefix every special character with a backslash. -/
def escapeMarkdownStr (s : String) : String :=
  String.mk (s.data.foldr (fun c acc => if mdv2Chars.contains c then '\\' :: c :: acc else c :: acc) [])

/-- Application of escape_markdown to a JSON value: it is only defined on
strings; on any other type `re.sub` raises TypeError, modelled as `.error`. -/
def escape_markdown : Json → Except Unit String
  | .str s => .ok (escapeMarkdownStr s)
  | _ => .error ()

/-- Parsed JSON object restricted to what the handlers do with it:
`get` returns the value of the first binding of a key. -/
abbrev JsonObj := List (String × Json)

/-- Model of `dict.get(k)` on a parsed JSON object. -/
def objGet (o : JsonObj) (k : String) : Option Json :=
  (o.find? (fun kv => kv.1 == k)).map (fun kv => kv.2)

/-- Value found in the `user` / `staff` field of a 200 login response:
either a dict (on which `.get` works) or any other JSON value, on which
`.get` raises AttributeError and the handler falls into its `except`. -/
inductive UserVal where
  | dict : JsonObj → UserVal
  | nonDict : Json → UserVal
deriving DecidableEq

/-- Python truthiness of a `user` / `staff` field value (a dict is truthy
iff it is non-empty). -/
def UserVal.truthy : UserVal → Bool
  | .dict o => !o.isEmpty
  | .nonDict j => j.truthy

/-- Fields src/bot.py reads from a parsed verifier response body:
`data.get('user')` / `data.get('staff')` / `data.get('token')` on a 200,
and `error_data.get('message')` on a non-200. -/
structure RespBody where
  user : Option UserVal
  staff : Option UserVal
  token : Option Json
  message : Option Json
deriving DecidableEq

/-- Outcome of the `session.post` to the credential verifier as the handler
observes it: an HTTP response whose body either parses as JSON (`some`) or
raises inside `response.json()` (`none`), or a transport exception. -/
inductive VerifierOutcome where
  | response : Nat → Option RespBody → VerifierOutcome
  | exn : VerifierOutcome
deriving DecidableEq

/-- One AUTHORIZED entry (owner session), keyed by Telegram user id. -/
structure OwnerInfo where
  chat_id : Int
  user_id : Json
  token : Json
  email : String
deriving DecidableEq

/-- One AUTHENTICATED_STAFF_DETAILS entry (staff session), keyed by chat id. -/
structure StaffInfo where
  staff_id : Json
  email : String
  website_id : Json
  name : String
  token : Json
deriving DecidableEq

/-- The two global in-memory stores of bot.py.  Python dicts are modelled
as insertion-ordered association lists without duplicate keys. -/
structure Stores where
  AUTHORIZED : List (Int × OwnerInfo)
  AUTHENTICATED_STAFF_DETAILS : List (Int × StaffInfo)
deriving DecidableEq

/-- Python `d[k] = v`: overwrite the entry in place if the key exists,
otherwise append it. -/
def dictInsert {β : Type} (k : Int) (v : β) : List (Int × β) → List (Int × β)
  | [] => [(k, v)]
  | e :: rest => if k = e.1 then (k, v) :: rest else e :: dictInsert k v rest

/-- Python `del d[k]`: remove the entry with the given key. -/
def dictDelete {β : Type} (k : Int) : List (Int × β) → List (Int × β)
  | [] => []
  | e :: rest => if k = e.1 then rest else e :: dictDelete k rest

/-- Python `k in d`. -/
def dictContains {β : Type} (k : Int) (l : List (Int × β)) : Bool :=
  l.any (fun e => e.1 == k)

/-- Transient per-dialogue state: the two `context.user_data` keys used. -/
structure UserData where
  owner_email : Option String
  staff_email : Option String
deriving DecidableEq

/-- The truthiness test `if not email:` applied to `user_data.get(...)`. -/
def emailFalsy : Option String → Bool
  | none => true
  | some s => s == ""

/-- Conversation states of the ConversationHandler; `END` is
ConversationHandler.END. -/
inductive ConvState where
  | AUTH_CHOICE
  | GET_STAFF_EMAIL
  | GET_STAFF_PASSWORD
  | GET_OWNER_EMAIL
  | GET_OWNER_PASSWORD
  | END
deriving DecidableEq, Repr

/-- Result of one conversation-handler step: the state handed back to the
ConversationHandler, the transient user_data, the two stores, the replies
sent to the chat, and whether the verifier HTTP call was issued. -/
structure StepResult where
  state : ConvState
  user_data : UserData
  stores : Stores
  replies : List String
  calledVerifier : Bool
deriving DecidableEq

/-- Reply sent for an empty email (owner and staff wording coincide). -/
def emailEmptyMsg : String :=
  "Email cannot be empty\\. Please enter your email address \\."

/-- Reply sent after a non-empty owner email. -/
def ownerEmailThanksMsg : String :=
  "Thanks\\! Now, please send me your *password* \\."

/-- Reply sent after a non-empty staff email. -/
def staffEmailThanksMsg : String :=
  "Thanks\\! Now, please send me your password \\."

/-- Reply sent for an empty password. -/
def pwEmptyMsg : String :=
  "Password cannot be empty\\. Please enter your *password* \\."

/-- Reply sent when the password arrives with no stored email. -/
def lostEmailMsg : String :=
  "It seems I lost your email\\. Please restart the authentication process with /start\\."

/-- Reply for a 200 owner login whose body lacks user info or token. -/
def ownerNoDetailsMsg : String :=
  "Authentication successful, but could not retrieve owner details or token\\. Please contact support\\."

/-- Reply for a 200 staff login whose body lacks staff info or token. -/
def staffNoDetailsMsg : String :=
  "Authentication successful, but could not retrieve staff details or token\\. Please contact support\\."

/-- Reply for a non-200 login carrying the server-supplied message. -/
def authFailedMsg (m : String) : String :=
  "Authentication failed: " ++ escapeMarkdownStr m ++ "\nPlease check your credentials and try again, or /cancel\\."

/-- Generic reply sent from the `except` branches of the login handlers. -/
def genericErrMsg : String :=
  "An error occurred while trying to authenticate with the server\\. Please try again later or contact support\\. You can /cancel this process\\."

/-- Success reply of the owner login. -/
def ownerSuccessMsg (email : String) : String :=
  "Authentication successful for owner `" ++ escapeMarkdownStr email ++ "`\\! ✅\nYou are now registered to receive important notifications\\."

/-- Success reply of the staff login. -/
def staffSuccessMsg (staffName wid : String) : String :=
  "Authentication successful for " ++ escapeMarkdownStr staffName ++ "\\! ✅\nYou are now linked to website ID: `" ++ escapeMarkdownStr wid ++ "`\\."

/-- Embedding of `start` (src/bot.py lines 61-91): logout side effect on both
stores, then the role-choice prompt; returns AUTH_CHOICE. -/
def start (user_id chat_id : Int) (st : Stores) : ConvState × Stores :=
  let a := if dictContains user_id st.AUTHORIZED then dictDelete user_id st.AUTHORIZED else st.AUTHORIZED
  let s := if dictContains chat_id st.AUTHENTICATED_STAFF_DETAILS then dictDelete chat_id st.AUTHENTICATED_STAFF_DETAILS else st.AUTHENTICATED_STAFF_DETAILS
  (ConvState.AUTH_CHOICE, Stores.mk a s)

/-- Embedding of `get_owner_email` (src/bot.py lines 128-146). -/
def get_owner_email (text : String) (ud : UserData) (st : Stores) : StepResult :=
  let email := pyStrip text
  if email = "" then
    StepResult.mk ConvState.GET_OWNER_EMAIL ud st [emailEmptyMsg] false
  else
    StepResult.mk ConvState.GET_OWNER_PASSWORD (UserData.mk (some email) ud.staff_email) st [ownerEmailThanksMsg] false

/-- Embedding of `get_staff_email` (src/bot.py lines 227-245). -/
def get_staff_email (text : String) (ud : UserData) (st : Stores) : StepResult :=
  let email := pyStrip text
  if email = "" then
    StepResult.mk ConvState.GET_STAFF_EMAIL ud st [emailEmptyMsg] false
  else
    StepResult.mk ConvState.GET_STAFF_PASSWORD (UserData.mk ud.owner_email (some email)) st [staffEmailThanksMsg] false

/-- Embedding of `get_owner_password` (src/bot.py lines 148-225).  A 200
response with well-formed body writes AUTHORIZED and ends; a 200 with a
missing/falsy user dict, id or token ends with the contact-support reply;
a truthy non-dict `user` value raises in `.get` and lands in `except`
(generic reply, END); a non-200 whose body parses and whose `message`
field is absent or a string replies and stays in GET_OWNER_PASSWORD for a
retry; any raising path (unparseable body, non-string `message` fed to
escape_markdown, transport error) ends via `except`. -/
def get_owner_password (text : String) (chat_id user_id : Int) (ud : UserData)
    (st : Stores) (outcome : VerifierOutcome) : StepResult :=
  let password := pyStrip text
  if password = "" then
    StepResult.mk ConvState.GET_OWNER_PASSWORD ud st [pwEmptyMsg] false
  else if emailFalsy ud.owner_email then
    StepResult.mk ConvState.END ud st [lostEmailMsg] false
  else
    let email := ud.owner_email.getD ""
    match outcome with
    | .exn => StepResult.mk ConvState.END ud st [genericErrMsg] true
    | .response status body =>
      if status = 200 then
        match body with
        | none => StepResult.mk ConvState.END ud st [genericErrMsg] true
        | some b =>
          match b.user with
          | none => StepResult.mk ConvState.END ud st [ownerNoDetailsMsg] true
          | some (.nonDict j) =>
            if j.truthy then StepResult.mk ConvState.END ud st [genericErrMsg] true
            else StepResult.mk ConvState.END ud st [ownerNoDetailsMsg] true
          | some (.dict fields) =>
            if fields.isEmpty then StepResult.mk ConvState.END ud st [ownerNoDetailsMsg] true
            else if truthyOpt (objGet fields "id") && truthyOpt b.token then
              let idv := (objGet fields "id").getD Json.null
              let tokv := b.token.getD Json.null
              let st' := Stores.mk (dictInsert user_id (OwnerInfo.mk chat_id idv tokv email) st.AUTHORIZED) st.AUTHENTICATED_STAFF_DETAILS
              StepResult.mk ConvState.END ud st' [ownerSuccessMsg email] true
            else StepResult.mk ConvState.END ud st [ownerNoDetailsMsg] true
      else
        match body with
        | none => StepResult.mk ConvState.END ud st [genericErrMsg] true
        | some b =>
          match b.message.getD (Json.str "Unknown error during login.") with
          | .str m => StepResult.mk ConvState.GET_OWNER_PASSWORD ud st [authFailedMsg m] true
          | _ => StepResult.mk ConvState.END ud st [genericErrMsg] true

/-- Embedding of `get_staff_password` (src/bot.py lines 247-327).  Same
shape as the owner handler; the store written is
AUTHENTICATED_STAFF_DETAILS keyed by chat id, the `name` value is fed to
escape_markdown before the store write (so a present non-string name
raises and the entry is not written), and a non-200 whose body parses
with a string/absent `message` returns GET_STAFF_PASSWORD. -/
def get_staff_password (text : String) (chat_id user_id : Int) (ud : UserData)
    (st : Stores) (outcome : VerifierOutcome) : StepResult :=
  let password := pyStrip text
  if password = "" then
    StepResult.mk ConvState.GET_STAFF_PASSWORD ud st [pwEmptyMsg] false
  else if emailFalsy ud.staff_email then
    StepResult.mk ConvState.END ud st [lostEmailMsg] false
  else
    let email := ud.staff_email.getD ""
    match outcome with
    | .exn => StepResult.mk ConvState.END ud st [genericErrMsg] true
    | .response status body =>
      if status = 200 then
        match body with
        | none => StepResult.mk ConvState.END ud st [genericErrMsg] true
        | some b =>
          match b.staff with
          | none => StepResult.mk ConvState.END ud st [staffNoDetailsMsg] true
          | some (.nonDict j) =>
            if j.truthy then StepResult.mk ConvState.END ud st [genericErrMsg] true
            else StepResult.mk ConvState.END ud st [staffNoDetailsMsg] true
          | some (.dict fields) =>
            if fields.isEmpty then StepResult.mk ConvState.END ud st [staffNoDetailsMsg] true
            else if truthyOpt (objGet fields "id") && truthyOpt b.token then
              let staff_id := (objGet fields "id").getD Json.null
              let tokv := b.token.getD Json.null
              let website_id := (objGet fields "websiteId").getD Json.null
              match (objGet fields "name").getD (Json.str "Staff Member") with
              | .str staff_name =>
                let st' := Stores.mk st.AUTHORIZED (dictInsert chat_id (StaffInfo.mk staff_id email website_id staff_name tokv) st.AUTHENTICATED_STAFF_DETAILS)
                StepResult.mk ConvState.END ud st' [staffSuccessMsg staff_name (pyStr website_id)] true
              | _ => StepResult.mk ConvState.END ud st [genericErrMsg] true
            else StepResult.mk ConvState.END ud st [staffNoDetailsMsg] true
      else
        match body with
        | none => StepResult.mk ConvState.END ud st [genericErrMsg] true
        | some b =>
          match b.message.getD (Json.str "Unknown error during login.") with
          | .str m => StepResult.mk ConvState.GET_STAFF_PASSWORD ud st [authFailedMsg m] true
          | _ => StepResult.mk ConvState.END ud st [genericErrMsg] true

/-- The linear scan over AUTHORIZED performed by handle_notify
(src/bot.py lines 371-375); this is the operation the spec calls
find_owner_by_backend_id: the chat id of the first entry whose backend
user id equals the given id. -/
def find_owner_by_backend_id (l : List (Int × OwnerInfo)) (oid : Json) : Option Int :=
  match l with
  | [] => none
  | e :: rest => if e.2.user_id.pyEq oid then some e.2.chat_id else find_owner_by_backend_id rest oid

/-- The fields handle_notify reads from a parsed /notify JSON body. -/
structure NotifyPayload where
  message : Option Json
  websiteId : Option Json
  notifyOwner : Option Json
  notifyAllStaff : Option Json
  ownerId : Option Json
deriving DecidableEq

/-- Observable outcome of one /notify request: HTTP status, the `status`
field of the JSON response body (none for the framework 500 page), the
attempted outbound dispatches in order, and the logged staff send count. -/
structure NotifyResult where
  httpStatus : Nat
  bodyStatus : Option String
  dispatches : List (Int × String)
  notified_staff_count : Nat
deriving DecidableEq

/-- Embedding of `handle_notify` (src/bot.py lines 342-403).  `sendFails`
tells which chat destinations raise inside bot.send_message; those
exceptions are caught per destination, so they only affect the logged
notified_staff_count, never the response or the remaining dispatches.  A
truthy non-string `message` or a non-string `websiteId` raises TypeError
in escape_markdown outside any try, which aiohttp surfaces as a 500 with
nothing dispatched. -/
def handle_notify (p : NotifyPayload) (st : Stores) (sendFails : Int → Bool) : NotifyResult :=
  let websiteId := p.websiteId.getD (Json.str "N/A")
  let notify_owner := p.notifyOwner.getD (Json.bool false)
  let notify_all_staff := p.notifyAllStaff.getD (Json.bool false)
  if !truthyOpt p.message then
    NotifyResult.mk 400 (some "error") [] 0
  else
    match escape_markdown (p.message.getD Json.null), escape_markdown websiteId with
    | .ok em, .ok ew =>
      let full_message := "💬 New message on website ID: `" ++ ew ++ "`\n`" ++ em ++ "`"
      let ownerDispatch :=
        if notify_owner.truthy && truthyOpt p.ownerId then
          match find_owner_by_backend_id st.AUTHORIZED (p.ownerId.getD Json.null) with
          | some c => if c != 0 then [(c, full_message)] else []
          | none => []
        else []
      let staffMatches :=
        if notify_all_staff.truthy then
          st.AUTHENTICATED_STAFF_DETAILS.filter (fun e => e.2.website_id.pyEq websiteId)
        else []
      let staffDispatch := staffMatches.map (fun e => (e.1, full_message))
      let cnt := (staffMatches.filter (fun e => !sendFails e.1)).length
      NotifyResult.mk 200 (some "ok") (ownerDispatch ++ staffDispatch) cnt
    | _, _ => NotifyResult.mk 500 none [] 0

/-- HTTP methods relevant to the registered routes. -/
inductive HttpMethod where
  | GET
  | POST
deriving DecidableEq

/-- The exact route registrations performed in `main`
(src/bot.py lines 481-483): two POST routes and nothing else. -/
def registered_routes : List (HttpMethod × String) :=
  [(HttpMethod.POST, "/notify"), (HttpMethod.POST, "/telegram/webhook")]

/-- Result of aiohttp route resolution against the registered table. -/
inductive RouteResolution where
  | matched : String → RouteResolution
  | methodNotAllowed : RouteResolution
  | notFound : RouteResolution
deriving DecidableEq

/-- aiohttp route resolution over the routes registered in `main`. -/
def resolve_route (m : HttpMethod) (path : String) : RouteResolution :=
  if m = HttpMethod.POST && path == "/notify" then RouteResolution.matched "handle_notify"
  else if m = HttpMethod.POST && path == "/telegram/webhook" then RouteResolution.matched "telegram_webhook_handler"
  else if registered_routes.any (fun r => r.2 == path) then RouteResolution.methodNotAllowed
  else RouteResolution.notFound

/-- Status produced by aiohttp when resolution does not reach a handler. -/
def unmatched_status : RouteResolution → Option Nat
  | .matched _ => none
  | .methodNotAllowed => some 405
  | .notFound => some 404

end Bot

namespace Bot

/-! Helper lemmas about the embedded dictionary operations and scans. -/

theorem pyEq_refl (j : Json) : j.pyEq j = true := by
  cases j <;> simp [Json.pyEq]

theorem objGet_isEmpty_false {fields : JsonObj} {k : String} {v : Json}
    (h : objGet fields k = some v) : fields.isEmpty = false := by
  cases fields with
  | nil => simp [objGet] at h
  | cons e rest => rfl

theorem getD_truthy {o : Option Json} {d : Json} (h : truthyOpt o = true) :
    (o.getD d).truthy = true := by
  cases o with
  | none => simp [truthyOpt] at h
  | some j => simpa [truthyOpt] using h

theorem getD_bool_false_falsy {o : Option Json} (h : truthyOpt o = false) :
    (o.getD (Json.bool false)).truthy = false := by
  cases o with
  | none => rfl
  | some j => simpa [truthyOpt] using h

theorem dictInsert_idem {β : Type} (k : Int) (v : β) (l : List (Int × β)) :
    dictInsert k v (dictInsert k v l) = dictInsert k v l := by
  induction l with
  | nil => simp [dictInsert]
  | cons e rest ih =>
    by_cases h : k = e.1
    · simp [dictInsert, h]
    · simp [dictInsert, h, ih]

theorem find_none_of_all_false {l : List (Int × OwnerInfo)} {bid : Json}
    (h : ∀ e ∈ l, e.2.user_id.pyEq bid = false) :
    find_owner_by_backend_id l bid = none := by
  induction l with
  | nil => rfl
  | cons e rest ih =>
    have he := h e (by simp)
    simp only [find_owner_by_backend_id, he, Bool.false_eq_true, if_false]
    exact ih (fun f hf => h f (by simp [hf]))

theorem find_after_insert {l : List (Int × OwnerInfo)} {uid : Int} {info : OwnerInfo} {bid : Json}
    (hframe : ∀ e ∈ l, e.1 ≠ uid → e.2.user_id.pyEq bid = false)
    (hmatch : info.user_id.pyEq bid = true) :
    find_owner_by_backend_id (dictInsert uid info l) bid = some info.chat_id := by
  induction l with
  | nil => simp [dictInsert, find_owner_by_backend_id, hmatch]
  | cons e rest ih =>
    by_cases h : uid = e.1
    · simp [dictInsert, h, find_owner_by_backend_id, hmatch]
    · have he : e.2.user_id.pyEq bid = false :=
        hframe e (by simp) (fun hc => h hc.symm)
      simp only [dictInsert, if_neg h, find_owner_by_backend_id, he, Bool.false_eq_true, if_false]
      exact ih (fun f hf hne => hframe f (by simp [hf]) hne)

theorem mem_dictInsert {β : Type} {l : List (Int × β)} {k : Int} {v : β} {e : Int × β}
    (he : e ∈ dictInsert k v l) : e = (k, v) ∨ e ∈ l := by
  induction l with
  | nil => simpa [dictInsert] using he
  | cons f rest ih =>
    by_cases h : k = f.1
    · simp only [dictInsert, if_pos h, List.mem_cons] at he
      rcases he with he | he
      · exact Or.inl he
      · exact Or.inr (List.mem_cons_of_mem f he)
    · simp only [dictInsert, if_neg h, List.mem_cons] at he
      rcases he with he | he
      · exact Or.inr (he ▸ List.mem_cons_self f rest)
      · rcases ih he with h1 | h1
        · exact Or.inl h1
        · exact Or.inr (List.mem_cons_of_mem f h1)

theorem mem_dictDelete {β : Type} {l : List (Int × β)} {k : Int} {e : Int × β}
    (he : e ∈ dictDelete k l) : e ∈ l := by
  induction l with
  | nil => simp [dictDelete] at he
  | cons f rest ih =>
    by_cases h : k = f.1
    · simp only [dictDelete, if_pos h] at he
      exact List.mem_cons_of_mem f he
    · simp only [dictDelete, if_neg h, List.mem_cons] at he
      rcases he with he | he
      · exact he ▸ List.mem_cons_self f rest
      · exact List.mem_cons_of_mem f (ih he)

theorem fst_ne_of_mem_dictDelete {β : Type} {l : List (Int × β)} {k : Int} {e : Int × β}
    (hnd : (l.map Prod.fst).Nodup) (he : e ∈ dictDelete k l) : e.1 ≠ k := by
  induction l with
  | nil => simp [dictDelete] at he
  | cons f rest ih =>
    rw [List.map_cons, List.nodup_cons] at hnd
    by_cases h : k = f.1
    · simp only [dictDelete, if_pos h] at he
      intro hek
      apply hnd.1
      have : e.1 ∈ rest.map Prod.fst := List.mem_map_of_mem Prod.fst he
      rw [hek, h] at this
      exact this
    · simp only [dictDelete, if_neg h, List.mem_cons] at he
      rcases he with he | he
      · intro hek
        exact h (by rw [he] at hek; exact hek.symm)
      · exact ih hnd.2 he

theorem mem_keys_dictInsert {β : Type} {l : List (Int × β)} {k a : Int} {v : β}
    (ha : a ∈ (dictInsert k v l).map Prod.fst) : a = k ∨ a ∈ l.map Prod.fst := by
  rcases List.mem_map.mp ha with ⟨e, he, hfst⟩
  rcases mem_dictInsert he with h | h
  · left
    rw [← hfst, h]
  · right
    exact hfst ▸ List.mem_map_of_mem Prod.fst h

theorem nodup_keys_dictInsert {β : Type} {l : List (Int × β)} (k : Int) (v : β)
    (hnd : (l.map Prod.fst).Nodup) : ((dictInsert k v l).map Prod.fst).Nodup := by
  induction l with
  | nil => simp [dictInsert]
  | cons f rest ih =>
    rw [List.map_cons, List.nodup_cons] at hnd
    by_cases h : k = f.1
    · simp only [dictInsert, if_pos h, List.map_cons, List.nodup_cons]
      exact ⟨by rw [h]; exact hnd.1, hnd.2⟩
    · simp only [dictInsert, if_neg h, List.map_cons, List.nodup_cons]
      refine ⟨fun hmem => ?_, ih hnd.2⟩
      rcases mem_keys_dictInsert hmem with h1 | h1
      · exact h h1.symm
      · exact hnd.1 h1

theorem contains_dictInsert {β : Type} (k : Int) (v : β) (l : List (Int × β)) :
    dictContains k (dictInsert k v l) = true := by
  induction l with
  | nil => simp [dictInsert, dictContains]
  | cons f rest ih =>
    by_cases h : k = f.1
    · simp [dictInsert, h, dictContains]
    · simp only [dictInsert, if_neg h, dictContains, List.any_cons]
      simp only [dictContains] at ih
      rw [ih]
      simp

theorem notify_delivery_independent (q : NotifyPayload) (stq : Stores) (f g : Int → Bool) :
    (handle_notify q stq f).httpStatus = (handle_notify q stq g).httpStatus ∧
    (handle_notify q stq f).bodyStatus = (handle_notify q stq g).bodyStatus ∧
    (handle_notify q stq f).dispatches = (handle_notify q stq g).dispatches := by
  by_cases hm : truthyOpt q.message
  · cases h1 : escape_markdown (q.message.getD Json.null) with
    | error e => simp [handle_notify, hm, h1]
    | ok em =>
      cases h2 : escape_markdown (q.websiteId.getD (Json.str "N/A")) with
      | error e => simp [handle_notify, hm, h1, h2]
      | ok ew => simp [handle_notify, hm, h1, h2]
  · simp [handle_notify, hm]


/-! Claim theorems. -/

/-- Claim C1 (amended): when the credential verifier returns a non-200
response whose body parses as JSON and whose optional `message` field is
absent or a string, BOTH the owner dialogue and the staff dialogue remain
in their respective password-collection states for a retry (neither
transitions to END), with both stores untouched. -/
theorem c1_non200_keeps_password_state
    (text : String) (cid uid : Int) (ud : UserData) (st : Stores)
    (status : Nat) (b : RespBody)
    (hpw : pyStrip text ≠ "")
    (hst : status ≠ 200)
    (hmsg : b.message = none ∨ ∃ m, b.message = some (Json.str m)) :
    (emailFalsy ud.owner_email = false →
      (get_owner_password text cid uid ud st (VerifierOutcome.response status (some b))).state = ConvState.GET_OWNER_PASSWORD ∧
      (get_owner_password text cid uid ud st (VerifierOutcome.response status (some b))).stores = st) ∧
    (emailFalsy ud.staff_email = false →
      (get_staff_password text cid uid ud st (VerifierOutcome.response status (some b))).state = ConvState.GET_STAFF_PASSWORD ∧
      (get_staff_password text cid uid ud st (VerifierOutcome.response status (some b))).stores = st) := by
  rcases hmsg with hmsg | ⟨m, hmsg⟩ <;>
    constructor <;> intro h <;>
      simp [get_owner_password, get_staff_password, hpw, hst, h, hmsg]

/-- Witness for C1: a concrete 401 with a parseable body leaves the owner
dialogue in GET_OWNER_PASSWORD and the staff dialogue in
GET_STAFF_PASSWORD. -/
theorem c1_non200_keeps_password_state_witness :
    (get_owner_password "pw" 1 2 (UserData.mk (some "a") (some "b")) (Stores.mk [] [])
        (VerifierOutcome.response 401 (some (RespBody.mk none none none none)))).state = ConvState.GET_OWNER_PASSWORD ∧
    (get_staff_password "pw" 1 2 (UserData.mk (some "a") (some "b")) (Stores.mk [] [])
        (VerifierOutcome.response 401 (some (RespBody.mk none none none none)))).state = ConvState.GET_STAFF_PASSWORD := by
  have h := c1_non200_keeps_password_state "pw" 1 2 (UserData.mk (some "a") (some "b")) (Stores.mk [] [])
    401 (RespBody.mk none none none none) (by decide) (by decide) (Or.inl rfl)
  exact ⟨(h.1 (by decide)).1, (h.2 (by decide)).1⟩

/-- Counterexample to C1 as stated: at a concrete non-200 staff login
response the staff dialogue returns GET_STAFF_PASSWORD, not the END state
the claim asserts for the staff path. -/
theorem c1_counterexample :
    (get_staff_password "pw" 1 2 (UserData.mk none (some "e")) (Stores.mk [] [])
        (VerifierOutcome.response 401 (some (RespBody.mk none none none (some (Json.str "Invalid credentials")))))).state
      = ConvState.GET_STAFF_PASSWORD ∧
    ConvState.GET_STAFF_PASSWORD ≠ ConvState.END := by decide

/-- Counterexample to C2 as stated: a staff session whose tenant id was
stored as the number 1 does not match an event whose websiteId is the
string "1" — the comparison is raw uncoerced equality, so zero messages
are dispatched where the claim requires a match regardless of whether
either side arrived as string or number. -/
theorem c2_counterexample :
    (handle_notify (NotifyPayload.mk (some (Json.str "m")) (some (Json.str "1")) none (some (Json.bool true)) none)
        (Stores.mk [] [(10, StaffInfo.mk (Json.str "s1") "e" (Json.num 1) "n" (Json.str "t"))])
        (fun _ => false)).dispatches = [] := by decide

/-- Claim C2 (amended): with the all-staff flag set (and the owner flag
absent), the router dispatches exactly one message to each staff session
whose stored tenant id equals the event websiteId under raw, uncoerced
equality; with string tenants on both sides this gives the two-of-three
fan-out of the claim. -/
theorem c2_staff_fanout_uncoerced
    (p : NotifyPayload) (st : Stores) (f : Int → Bool) (s w : String)
    (hm : p.message = some (Json.str s)) (hs : s ≠ "")
    (hw : p.websiteId = some (Json.str w))
    (hall : truthyOpt p.notifyAllStaff = true)
    (hown : p.notifyOwner = none) :
    (handle_notify p st f).dispatches.map Prod.fst
      = (st.AUTHENTICATED_STAFF_DETAILS.filter (fun e => e.2.website_id.pyEq (Json.str w))).map Prod.fst := by
  have hmt : truthyOpt (some (Json.str s)) = true := by simp [truthyOpt, Json.truthy, hs]
  have ht : (p.notifyAllStaff.getD (Json.bool false)).truthy = true := getD_truthy hall
  have hof : (p.notifyOwner.getD (Json.bool false)).truthy = false := by rw [hown]; rfl
  simp [handle_notify, hm, hw, hmt, ht, hof, escape_markdown, Function.comp]

/-- Witness for C2: two staff sessions with tenant "W1" and one with "W2";
the event with websiteId "W1" dispatches to exactly the two matches. -/
theorem c2_staff_fanout_uncoerced_witness :
    (handle_notify (NotifyPayload.mk (some (Json.str "m")) (some (Json.str "W1")) none (some (Json.bool true)) none)
        (Stores.mk [] [(11, StaffInfo.mk (Json.str "s1") "a" (Json.str "W1") "n" (Json.str "t")),
                       (12, StaffInfo.mk (Json.str "s2") "b" (Json.str "W1") "n" (Json.str "t")),
                       (13, StaffInfo.mk (Json.str "s3") "c" (Json.str "W2") "n" (Json.str "t"))])
        (fun _ => false)).dispatches.map Prod.fst
      = ((Stores.mk [] [(11, StaffInfo.mk (Json.str "s1") "a" (Json.str "W1") "n" (Json.str "t")),
                        (12, StaffInfo.mk (Json.str "s2") "b" (Json.str "W1") "n" (Json.str "t")),
                        (13, StaffInfo.mk (Json.str "s3") "c" (Json.str "W2") "n" (Json.str "t"))]).AUTHENTICATED_STAFF_DETAILS.filter
            (fun e => e.2.website_id.pyEq (Json.str "W1"))).map Prod.fst ∧
    (handle_notify (NotifyPayload.mk (some (Json.str "m")) (some (Json.str "W1")) none (some (Json.bool true)) none)
        (Stores.mk [] [(11, StaffInfo.mk (Json.str "s1") "a" (Json.str "W1") "n" (Json.str "t")),
                       (12, StaffInfo.mk (Json.str "s2") "b" (Json.str "W1") "n" (Json.str "t")),
                       (13, StaffInfo.mk (Json.str "s3") "c" (Json.str "W2") "n" (Json.str "t"))])
        (fun _ => false)).dispatches.length = 2 := by
  constructor
  · exact c2_staff_fanout_uncoerced _ _ _ "m" "W1" rfl (by decide) rfl (by decide) rfl
  · decide

/-- Counterexample to C3 as stated: a payload with non-empty message "hi"
and the numeric websiteId 123 is not acknowledged with 200 — the
markdown escaping raises TypeError on the number outside any try and the
server answers 500 with nothing dispatched. -/
theorem c3_counterexample :
    (handle_notify (NotifyPayload.mk (some (Json.str "hi")) (some (Json.num 123)) none none none)
        (Stores.mk [] []) (fun _ => false)).httpStatus = 500 ∧
    (handle_notify (NotifyPayload.mk (some (Json.str "hi")) (some (Json.num 123)) none none none)
        (Stores.mk [] []) (fun _ => false)).httpStatus ≠ 200 := by decide

/-- Claim C3 (amended): for every parseable /notify body with a non-empty
string message whose websiteId is absent or a string, the handler returns
the 200 ok acknowledgment, and neither the response nor the sequence of
attempted dispatches depends on which per-destination deliveries fail. -/
theorem c3_ack_independent_of_delivery
    (p : NotifyPayload) (st : Stores) (f g : Int → Bool) (s : String)
    (hm : p.message = some (Json.str s)) (hs : s ≠ "")
    (hw : p.websiteId = none ∨ ∃ w, p.websiteId = some (Json.str w)) :
    (handle_notify p st f).httpStatus = 200 ∧
    (handle_notify p st f).bodyStatus = some "ok" ∧
    (handle_notify p st f).httpStatus = (handle_notify p st g).httpStatus ∧
    (handle_notify p st f).dispatches = (handle_notify p st g).dispatches := by
  refine ⟨?_, ?_, (notify_delivery_independent p st f g).1, (notify_delivery_independent p st f g).2.2⟩ <;>
    rcases hw with hw | ⟨w, hw⟩ <;>
      simp [handle_notify, hm, hs, hw, truthyOpt, Json.truthy, escape_markdown]

/-- Witness for C3: a concrete payload with one matching staff session is
acknowledged 200 ok, and the all-fail and none-fail delivery functions
give the same status and the same attempted dispatches. -/
theorem c3_ack_independent_of_delivery_witness :
    (handle_notify (NotifyPayload.mk (some (Json.str "hi")) (some (Json.str "W1")) none (some (Json.bool true)) none)
        (Stores.mk [] [(10, StaffInfo.mk (Json.str "s") "e" (Json.str "W1") "n" (Json.str "t"))])
        (fun _ => true)).httpStatus = 200 ∧
    (handle_notify (NotifyPayload.mk (some (Json.str "hi")) (some (Json.str "W1")) none (some (Json.bool true)) none)
        (Stores.mk [] [(10, StaffInfo.mk (Json.str "s") "e" (Json.str "W1") "n" (Json.str "t"))])
        (fun _ => true)).bodyStatus = some "ok" ∧
    (handle_notify (NotifyPayload.mk (some (Json.str "hi")) (some (Json.str "W1")) none (some (Json.bool true)) none)
        (Stores.mk [] [(10, StaffInfo.mk (Json.str "s") "e" (Json.str "W1") "n" (Json.str "t"))])
        (fun _ => true)).httpStatus
      = (handle_notify (NotifyPayload.mk (some (Json.str "hi")) (some (Json.str "W1")) none (some (Json.bool true)) none)
          (Stores.mk [] [(10, StaffInfo.mk (Json.str "s") "e" (Json.str "W1") "n" (Json.str "t"))])
          (fun _ => false)).httpStatus ∧
    (handle_notify (NotifyPayload.mk (some (Json.str "hi")) (some (Json.str "W1")) none (some (Json.bool true)) none)
        (Stores.mk [] [(10, StaffInfo.mk (Json.str "s") "e" (Json.str "W1") "n" (Json.str "t"))])
        (fun _ => true)).dispatches
      = (handle_notify (NotifyPayload.mk (some (Json.str "hi")) (some (Json.str "W1")) none (some (Json.bool true)) none)
          (Stores.mk [] [(10, StaffInfo.mk (Json.str "s") "e" (Json.str "W1") "n" (Json.str "t"))])
          (fun _ => false)).dispatches := by
  exact c3_ack_independent_of_delivery _ _ (fun _ => true) (fun _ => false) "hi" rfl (by decide)
    (Or.inr ⟨"W1", rfl⟩)

/-- Counterexample to C4 as stated: GET / matches no registered route, so
aiohttp answers with its default 404, not the claimed 200 "OK". -/
theorem c4_counterexample :
    unmatched_status (resolve_route HttpMethod.GET "/") = some 404 ∧
    unmatched_status (resolve_route HttpMethod.GET "/") ≠ some 200 := by decide

/-- Claim C4 (amended): the server built in main registers only the two
POST routes /notify and /telegram/webhook; a GET request to / resolves to
no route (404): no health-check surface exists. -/
theorem c4_no_health_route :
    resolve_route HttpMethod.GET "/" = RouteResolution.notFound ∧
    registered_routes.all (fun r => r.1 == HttpMethod.POST) = true := by decide


/-- Claim C5: a successful owner login performed in chat cid by Telegram
user uid, whose verifier response carries backend id bid and a token,
makes find_owner_by_backend_id on the resulting AUTHORIZED mapping return
cid (provided no other user already holds a session with the same backend
id), and a subsequent /start by the same user deletes the entry so the
lookup finds nothing. -/
theorem c5_owner_login_find_then_logout
    (text email : String) (cid uid : Int) (ud : UserData) (st : Stores)
    (fields : JsonObj) (tok bid : Json) (r : StepResult)
    (hpw : pyStrip text ≠ "")
    (hemail : ud.owner_email = some email) (hne : email ≠ "")
    (hid : objGet fields "id" = some bid)
    (hbid : bid.truthy = true) (htok : tok.truthy = true)
    (hnd : (st.AUTHORIZED.map Prod.fst).Nodup)
    (hframe : ∀ e ∈ st.AUTHORIZED, e.1 ≠ uid → e.2.user_id.pyEq bid = false)
    (hr : r = get_owner_password text cid uid ud st
        (VerifierOutcome.response 200 (some (RespBody.mk (some (UserVal.dict fields)) none (some tok) none)))) :
    find_owner_by_backend_id r.stores.AUTHORIZED bid = some cid ∧
    find_owner_by_backend_id ((start uid cid r.stores).2).AUTHORIZED bid = none := by
  have hnil : fields.isEmpty = false := objGet_isEmpty_false hid
  have hef : emailFalsy (some email) = false := by simp [emailFalsy, hne]
  have hidt : truthyOpt (objGet fields "id") = true := by
    rw [hid]
    simpa [truthyOpt] using hbid
  have htokt : truthyOpt (some tok) = true := by simpa [truthyOpt] using htok
  have hbidt : truthyOpt (some bid) = true := by simpa [truthyOpt] using hbid
  have hstores : r.stores
      = Stores.mk (dictInsert uid (OwnerInfo.mk cid bid tok email) st.AUTHORIZED) st.AUTHENTICATED_STAFF_DETAILS := by
    rw [hr]
    simp [get_owner_password, hpw, hemail, hef, hnil, hidt, htokt, hid, hbidt]
  rw [hstores]
  refine ⟨find_after_insert hframe (pyEq_refl bid), ?_⟩
  simp only [start, contains_dictInsert, if_true]
  apply find_none_of_all_false
  intro e he
  have h2 := fst_ne_of_mem_dictDelete (nodup_keys_dictInsert uid (OwnerInfo.mk cid bid tok email) hnd) he
  rcases mem_dictInsert (mem_dictDelete he) with h3 | h3
  · rw [h3] at h2
    simp at h2
  · exact hframe e h3 h2

/-- Witness for C5: from an empty store, a concrete successful owner login
with backend id "U1" in chat 5 makes the lookup return chat 5, and the
following /start removes the entry. -/
theorem c5_owner_login_find_then_logout_witness :
    find_owner_by_backend_id (get_owner_password "pw" 5 7 (UserData.mk (some "e@x") none) (Stores.mk [] [])
        (VerifierOutcome.response 200 (some (RespBody.mk (some (UserVal.dict [("id", Json.str "U1")])) none
          (some (Json.str "T")) none)))).stores.AUTHORIZED (Json.str "U1") = some 5 ∧
    find_owner_by_backend_id ((start 7 5 (get_owner_password "pw" 5 7 (UserData.mk (some "e@x") none) (Stores.mk [] [])
        (VerifierOutcome.response 200 (some (RespBody.mk (some (UserVal.dict [("id", Json.str "U1")])) none
          (some (Json.str "T")) none)))).stores).2).AUTHORIZED (Json.str "U1") = none := by
  exact c5_owner_login_find_then_logout "pw" "e@x" 5 7 (UserData.mk (some "e@x") none) (Stores.mk [] [])
    [("id", Json.str "U1")] (Json.str "T") (Json.str "U1") _
    (by decide) rfl (by decide) (by decide) (by decide) (by decide) (by simp)
    (fun e he hne => absurd he (List.not_mem_nil e)) rfl

/-- Claim C6: empty or whitespace-only input in any of the four
email/password collection states re-prompts and stays in the same state
and leaves both stores untouched. -/
theorem c6_blank_input_self_loop
    (text : String) (cid uid : Int) (ud : UserData) (st : Stores) (o : VerifierOutcome)
    (h : pyStrip text = "") :
    (get_owner_email text ud st).state = ConvState.GET_OWNER_EMAIL ∧
    (get_owner_email text ud st).stores = st ∧
    (get_owner_email text ud st).replies = [emailEmptyMsg] ∧
    (get_staff_email text ud st).state = ConvState.GET_STAFF_EMAIL ∧
    (get_staff_email text ud st).stores = st ∧
    (get_staff_email text ud st).replies = [emailEmptyMsg] ∧
    (get_owner_password text cid uid ud st o).state = ConvState.GET_OWNER_PASSWORD ∧
    (get_owner_password text cid uid ud st o).stores = st ∧
    (get_owner_password text cid uid ud st o).replies = [pwEmptyMsg] ∧
    (get_staff_password text cid uid ud st o).state = ConvState.GET_STAFF_PASSWORD ∧
    (get_staff_password text cid uid ud st o).stores = st ∧
    (get_staff_password text cid uid ud st o).replies = [pwEmptyMsg] := by
  simp [get_owner_email, get_staff_email, get_owner_password, get_staff_password, h]

/-- Witness for C6: the whitespace-only input " " self-loops in all four
collection states without touching the stores. -/
theorem c6_blank_input_self_loop_witness :
    (get_owner_email " " (UserData.mk none none) (Stores.mk [] [])).state = ConvState.GET_OWNER_EMAIL ∧
    (get_owner_email " " (UserData.mk none none) (Stores.mk [] [])).stores = Stores.mk [] [] ∧
    (get_owner_email " " (UserData.mk none none) (Stores.mk [] [])).replies = [emailEmptyMsg] ∧
    (get_staff_email " " (UserData.mk none none) (Stores.mk [] [])).state = ConvState.GET_STAFF_EMAIL ∧
    (get_staff_email " " (UserData.mk none none) (Stores.mk [] [])).stores = Stores.mk [] [] ∧
    (get_staff_email " " (UserData.mk none none) (Stores.mk [] [])).replies = [emailEmptyMsg] ∧
    (get_owner_password " " 1 2 (UserData.mk none none) (Stores.mk [] []) VerifierOutcome.exn).state = ConvState.GET_OWNER_PASSWORD ∧
    (get_owner_password " " 1 2 (UserData.mk none none) (Stores.mk [] []) VerifierOutcome.exn).stores = Stores.mk [] [] ∧
    (get_owner_password " " 1 2 (UserData.mk none none) (Stores.mk [] []) VerifierOutcome.exn).replies = [pwEmptyMsg] ∧
    (get_staff_password " " 1 2 (UserData.mk none none) (Stores.mk [] []) VerifierOutcome.exn).state = ConvState.GET_STAFF_PASSWORD ∧
    (get_staff_password " " 1 2 (UserData.mk none none) (Stores.mk [] []) VerifierOutcome.exn).stores = Stores.mk [] [] ∧
    (get_staff_password " " 1 2 (UserData.mk none none) (Stores.mk [] []) VerifierOutcome.exn).replies = [pwEmptyMsg] := by
  exact c6_blank_input_self_loop " " 1 2 (UserData.mk none none) (Stores.mk [] []) VerifierOutcome.exn (by decide)

/-- Claim C7: a parseable /notify body whose message field is absent or the
empty string is answered 400 with body status "error" and dispatches
nothing; and (distinctly) delivery failures never alter the HTTP status of
any request. -/
theorem c7_missing_message_400
    (p q : NotifyPayload) (st stq : Stores) (f g : Int → Bool)
    (h : p.message = none ∨ p.message = some (Json.str "")) :
    (handle_notify p st f).httpStatus = 400 ∧
    (handle_notify p st f).bodyStatus = some "error" ∧
    (handle_notify p st f).dispatches = [] ∧
    (handle_notify q stq f).httpStatus = (handle_notify q stq g).httpStatus := by
  refine ⟨?_, ?_, ?_, (notify_delivery_independent q stq f g).1⟩ <;>
    rcases h with h | h <;> simp [handle_notify, h, truthyOpt, Json.truthy]

/-- Witness for C7: a concrete body without a message field is answered 400
error with no dispatch, while a deliverable request keeps its status when
every delivery fails. -/
theorem c7_missing_message_400_witness :
    (handle_notify (NotifyPayload.mk none (some (Json.str "W1")) none (some (Json.bool true)) none)
        (Stores.mk [] [(10, StaffInfo.mk (Json.str "s") "e" (Json.str "W1") "n" (Json.str "t"))])
        (fun _ => true)).httpStatus = 400 ∧
    (handle_notify (NotifyPayload.mk none (some (Json.str "W1")) none (some (Json.bool true)) none)
        (Stores.mk [] [(10, StaffInfo.mk (Json.str "s") "e" (Json.str "W1") "n" (Json.str "t"))])
        (fun _ => true)).bodyStatus = some "error" ∧
    (handle_notify (NotifyPayload.mk none (some (Json.str "W1")) none (some (Json.bool true)) none)
        (Stores.mk [] [(10, StaffInfo.mk (Json.str "s") "e" (Json.str "W1") "n" (Json.str "t"))])
        (fun _ => true)).dispatches = [] ∧
    (handle_notify (NotifyPayload.mk (some (Json.str "hi")) (some (Json.str "W1")) none (some (Json.bool true)) none)
        (Stores.mk [] [(10, StaffInfo.mk (Json.str "s") "e" (Json.str "W1") "n" (Json.str "t"))])
        (fun _ => true)).httpStatus
      = (handle_notify (NotifyPayload.mk (some (Json.str "hi")) (some (Json.str "W1")) none (some (Json.bool true)) none)
          (Stores.mk [] [(10, StaffInfo.mk (Json.str "s") "e" (Json.str "W1") "n" (Json.str "t"))])
          (fun _ => false)).httpStatus := by
  exact c7_missing_message_400
    (NotifyPayload.mk none (some (Json.str "W1")) none (some (Json.bool true)) none)
    (NotifyPayload.mk (some (Json.str "hi")) (some (Json.str "W1")) none (some (Json.bool true)) none)
    (Stores.mk [] [(10, StaffInfo.mk (Json.str "s") "e" (Json.str "W1") "n" (Json.str "t"))])
    (Stores.mk [] [(10, StaffInfo.mk (Json.str "s") "e" (Json.str "W1") "n" (Json.str "t"))])
    (fun _ => true) (fun _ => false) (Or.inl rfl)

/-- Claim C8: with the owner-notify flag set and a truthy ownerId (string
message, string-or-absent websiteId, all-staff flag falsy), the router
attempts at most one dispatch; if the linear scan finds no matching owner
entry nothing is sent and the request still succeeds 200 ok; if it finds
one whose chat id is non-zero, the single dispatch goes to that first
matching entry's chat destination. -/
theorem c8_owner_notify_at_most_one
    (p : NotifyPayload) (st : Stores) (f : Int → Bool) (s : String) (oid : Json)
    (hm : p.message = some (Json.str s)) (hs : s ≠ "")
    (hw : p.websiteId = none ∨ ∃ w, p.websiteId = some (Json.str w))
    (hno : truthyOpt p.notifyOwner = true)
    (hoid : p.ownerId = some oid) (hoidt : oid.truthy = true)
    (hstaff : truthyOpt p.notifyAllStaff = false) :
    (handle_notify p st f).dispatches.length ≤ 1 ∧
    (find_owner_by_backend_id st.AUTHORIZED oid = none →
      (handle_notify p st f).dispatches = [] ∧
      (handle_notify p st f).httpStatus = 200 ∧
      (handle_notify p st f).bodyStatus = some "ok") ∧
    (∀ c, find_owner_by_backend_id st.AUTHORIZED oid = some c → c ≠ 0 →
      (handle_notify p st f).dispatches.map Prod.fst = [c]) := by
  have hmt : truthyOpt (some (Json.str s)) = true := by simp [truthyOpt, Json.truthy, hs]
  have hnt : (p.notifyOwner.getD (Json.bool false)).truthy = true := getD_truthy hno
  have hot : truthyOpt p.ownerId = true := by
    rw [hoid]
    simpa [truthyOpt] using hoidt
  have hsf : (p.notifyAllStaff.getD (Json.bool false)).truthy = false := getD_bool_false_falsy hstaff
  have hoidt2 : truthyOpt (some oid) = true := by simpa [truthyOpt] using hoidt
  refine ⟨?_, fun hnone => ?_, fun c hc hc0 => ?_⟩
  · rcases hw with hw | ⟨w, hw⟩ <;>
      cases hfind : find_owner_by_backend_id st.AUTHORIZED oid <;>
        simp [handle_notify, hm, hw, hmt, hnt, hoidt2, hsf, hoid, hfind, escape_markdown]
    all_goals split <;> simp
  · rcases hw with hw | ⟨w, hw⟩ <;>
      simp [handle_notify, hm, hw, hmt, hnt, hoidt2, hsf, hoid, hnone, escape_markdown]
  · rcases hw with hw | ⟨w, hw⟩ <;>
      simp [handle_notify, hm, hw, hmt, hnt, hoidt2, hsf, hoid, hc, hc0, escape_markdown, bne_iff_ne]

/-- Witness for C8: with two owner sessions sharing backend id "U1" in
chats 5 and 6, a concrete owner notification dispatches exactly to chat 5,
the first match of the linear scan. -/
theorem c8_owner_notify_at_most_one_witness :
    (handle_notify (NotifyPayload.mk (some (Json.str "hi")) none (some (Json.bool true)) none (some (Json.str "U1")))
        (Stores.mk [(7, OwnerInfo.mk 5 (Json.str "U1") (Json.str "T") "a"),
                    (8, OwnerInfo.mk 6 (Json.str "U1") (Json.str "T") "b")] [])
        (fun _ => false)).dispatches.map Prod.fst = [5] := by
  have h := c8_owner_notify_at_most_one
    (NotifyPayload.mk (some (Json.str "hi")) none (some (Json.bool true)) none (some (Json.str "U1")))
    (Stores.mk [(7, OwnerInfo.mk 5 (Json.str "U1") (Json.str "T") "a"),
                (8, OwnerInfo.mk 6 (Json.str "U1") (Json.str "T") "b")] [])
    (fun _ => false) "hi" (Json.str "U1") rfl (by decide) (Or.inl rfl) (by decide) rfl (by decide) (by decide)
  exact h.2.2 5 (by decide) (by decide)

/-- Claim C9: repeating an identical successful owner login twice leaves
the same stores as performing it once — the second write overwrites the
single AUTHORIZED entry keyed by the Telegram user id. -/
theorem c9_owner_login_idempotent
    (text email : String) (cid uid : Int) (ud : UserData) (st : Stores)
    (fields : JsonObj) (tok : Json)
    (hpw : pyStrip text ≠ "")
    (hemail : ud.owner_email = some email) (hne : email ≠ "")
    (hidt : truthyOpt (objGet fields "id") = true)
    (htok : tok.truthy = true) :
    (get_owner_password text cid uid ud
        (get_owner_password text cid uid ud st
            (VerifierOutcome.response 200 (some (RespBody.mk (some (UserVal.dict fields)) none (some tok) none)))).stores
        (VerifierOutcome.response 200 (some (RespBody.mk (some (UserVal.dict fields)) none (some tok) none)))).stores
      = (get_owner_password text cid uid ud st
            (VerifierOutcome.response 200 (some (RespBody.mk (some (UserVal.dict fields)) none (some tok) none)))).stores := by
  have hnil : fields.isEmpty = false := by
    cases hobj : objGet fields "id" with
    | none =>
      rw [hobj] at hidt
      simp [truthyOpt] at hidt
    | some v => exact objGet_isEmpty_false hobj
  have hef : emailFalsy (some email) = false := by simp [emailFalsy, hne]
  have htokt : truthyOpt (some tok) = true := by simpa [truthyOpt] using htok
  have key : ∀ S : Stores,
      (get_owner_password text cid uid ud S
          (VerifierOutcome.response 200 (some (RespBody.mk (some (UserVal.dict fields)) none (some tok) none)))).stores
        = Stores.mk (dictInsert uid (OwnerInfo.mk cid ((objGet fields "id").getD Json.null) tok email) S.AUTHORIZED)
            S.AUTHENTICATED_STAFF_DETAILS := by
    intro S
    simp [get_owner_password, hpw, hemail, hef, hnil, hidt, htokt]
  simp only [key]
  simp [dictInsert_idem]

/-- Witness for C9: a concrete successful owner login repeated twice gives
the same stores as performing it once. -/
theorem c9_owner_login_idempotent_witness :
    (get_owner_password "pw" 5 7 (UserData.mk (some "e@x") none)
        (get_owner_password "pw" 5 7 (UserData.mk (some "e@x") none) (Stores.mk [] [])
            (VerifierOutcome.response 200 (some (RespBody.mk (some (UserVal.dict [("id", Json.str "U1")])) none
              (some (Json.str "T")) none)))).stores
        (VerifierOutcome.response 200 (some (RespBody.mk (some (UserVal.dict [("id", Json.str "U1")])) none
          (some (Json.str "T")) none)))).stores
      = (get_owner_password "pw" 5 7 (UserData.mk (some "e@x") none) (Stores.mk [] [])
            (VerifierOutcome.response 200 (some (RespBody.mk (some (UserVal.dict [("id", Json.str "U1")])) none
              (some (Json.str "T")) none)))).stores := by
  exact c9_owner_login_idempotent "pw" "e@x" 5 7 (UserData.mk (some "e@x") none) (Stores.mk [] [])
    [("id", Json.str "U1")] (Json.str "T") (by decide) rfl (by decide) (by decide) (by decide)

/-- Counterexample to C10 as stated: a whitespace-only password submitted
while no email is stored re-prompts and stays in GET_OWNER_PASSWORD — the
dialogue is not terminated, so the claim fails for blank submissions. -/
theorem c10_counterexample :
    (get_owner_password "   " 1 2 (UserData.mk none none) (Stores.mk [] []) VerifierOutcome.exn).state
      = ConvState.GET_OWNER_PASSWORD ∧
    ConvState.GET_OWNER_PASSWORD ≠ ConvState.END := by decide

/-- Claim C10 (amended): every password submission with non-blank text
arriving while no email is stored in the transient dialogue state ends the
dialogue with the restart prompt, performs no verifier call, and mutates
neither store — for the owner and the staff handler alike. -/
theorem c10_no_email_ends_dialogue
    (text : String) (cid uid : Int) (ud : UserData) (st : Stores) (o : VerifierOutcome)
    (hpw : pyStrip text ≠ "")
    (ho : ud.owner_email = none) (hsf : ud.staff_email = none) :
    (get_owner_password text cid uid ud st o).state = ConvState.END ∧
    (get_owner_password text cid uid ud st o).stores = st ∧
    (get_owner_password text cid uid ud st o).calledVerifier = false ∧
    (get_owner_password text cid uid ud st o).replies = [lostEmailMsg] ∧
    (get_staff_password text cid uid ud st o).state = ConvState.END ∧
    (get_staff_password text cid uid ud st o).stores = st ∧
    (get_staff_password text cid uid ud st o).calledVerifier = false ∧
    (get_staff_password text cid uid ud st o).replies = [lostEmailMsg] := by
  simp [get_owner_password, get_staff_password, hpw, ho, hsf, emailFalsy]

/-- Witness for C10: a concrete non-blank password with cleared user_data
ends both dialogues with the restart prompt and no verifier call. -/
theorem c10_no_email_ends_dialogue_witness :
    (get_owner_password "pw" 1 2 (UserData.mk none none) (Stores.mk [] []) VerifierOutcome.exn).state = ConvState.END ∧
    (get_owner_password "pw" 1 2 (UserData.mk none none) (Stores.mk [] []) VerifierOutcome.exn).stores = Stores.mk [] [] ∧
    (get_owner_password "pw" 1 2 (UserData.mk none none) (Stores.mk [] []) VerifierOutcome.exn).calledVerifier = false ∧
    (get_owner_password "pw" 1 2 (UserData.mk none none) (Stores.mk [] []) VerifierOutcome.exn).replies = [lostEmailMsg] ∧
    (get_staff_password "pw" 1 2 (UserData.mk none none) (Stores.mk [] []) VerifierOutcome.exn).state = ConvState.END ∧
    (get_staff_password "pw" 1 2 (UserData.mk none none) (Stores.mk [] []) VerifierOutcome.exn).stores = Stores.mk [] [] ∧
    (get_staff_password "pw" 1 2 (UserData.mk none none) (Stores.mk [] []) VerifierOutcome.exn).calledVerifier = false ∧
    (get_staff_password "pw" 1 2 (UserData.mk none none) (Stores.mk [] []) VerifierOutcome.exn).replies = [lostEmailMsg] := by
  exact c10_no_email_ends_dialogue "pw" 1 2 (UserData.mk none none) (Stores.mk [] []) VerifierOutcome.exn
    (by decide) rfl rfl

end Bot
